import Mathlib

/-!
Shallow embedding of the ScanGuard CV ingestion pipeline.

Sources embedded:
* `src/backend/src/controllers/cvController.js` — `postDetection`, `postAlert`,
  `postHeartbeat`, `updateAlert`;
* `src/backend/src/middleware/apiKeyAuth.js` — `apiKeyAuth`;
* `src/backend/src/routes/cv.js` — the producer routes compose `apiKeyAuth`
  with the handler;
* `src/backend/migrations/001_initial_schema.sql` — table shapes and the
  all-zero defaults of `daily_stats`.

Modelling conventions:
* The Postgres database is a record of lists of rows; `SELECT ... LIMIT 1`
  becomes `List.find?`, `INSERT` appends, `UPDATE ... WHERE` maps over rows.
* JS timestamps are `Nat` epoch milliseconds; the controller's
  `new Date(ts).toISOString().split("T")[0]` becomes the UTC day number
  `ts / 86400000`.
* JS truthiness checks (`!x`, `x || y`, `x ? a : b`) are embedded explicitly:
  `undefined`, `""`, and `0` are falsy.
* Confidence values are `ℚ`.
* Socket.IO is a fanout context: `ioPresent` models `req.app.get("io")` being
  defined, `emitThrows` models the emit call throwing. Emitted events are
  collected in a list.
-/

namespace ScanGuard

/-- JS truthiness of an optional string (`undefined` and `""` are falsy). -/
def truthyS : Option String → Bool
  | none => false
  | some s => s ≠ ""

/-- JS truthiness of an optional numeric timestamp (`undefined` and `0` are falsy). -/
def truthyN : Option Nat → Bool
  | none => false
  | some n => n ≠ 0

/-- `x || null` on an optional string: `""` collapses to `null`. -/
def jsOrNullS : Option String → Option String
  | none => none
  | some s => if s = "" then none else some s

/-- `x || null` on an optional rational (`confidence || null`): `0` collapses to `null`. -/
def jsOrNullQ : Option ℚ → Option ℚ
  | none => none
  | some q => if q = 0 then none else some q

/-- `x || null` on an optional integer (`track_id || null`): `0` collapses to `null`. -/
def jsOrNullI : Option Int → Option Int
  | none => none
  | some i => if i = 0 then none else some i

/-- `x || d` on an optional Nat (`frame_number || 0`). -/
def jsOrDefN (x : Option Nat) (d : Nat) : Nat :=
  match x with
  | none => d
  | some n => if n = 0 then d else n

/-- `x || d` on an optional rational (`req.body.fps || 15.0`). -/
def jsOrDefQ (x : Option ℚ) (d : ℚ) : ℚ :=
  match x with
  | none => d
  | some q => if q = 0 then d else q

/-- JS `x >= t` where `x` may be `undefined`: comparisons on `undefined` are false. -/
def jsGE (x : Option ℚ) (t : ℚ) : Bool :=
  match x with
  | none => false
  | some q => t ≤ q

/-- UTC calendar-day number of an epoch-millisecond timestamp:
`new Date(ts).toISOString().split("T")[0]`. -/
def dateOf (ts : Nat) : Nat := ts / 86400000

/-- A detected-object descriptor (one element of the `detections` JSON array). -/
structure DetObj where
  class_name : String
  confidence : ℚ
  bbox : List ℚ
  track_id : Option Int
  deriving Repr, DecidableEq

/-- A row of the `cameras` table (the columns the controller reads). -/
structure Camera where
  id : String
  location_id : String
  camera_id : String
  deriving Repr, DecidableEq

/-- A row of the `locations` table (the columns the controller reads). -/
structure Location where
  id : String
  tenant_id : String
  deriving Repr, DecidableEq

/-- A row of the `cv_detections` table. -/
structure DetRecord where
  id : Nat
  camera_id : Option String
  location_id : String
  frame_number : Nat
  detections : List DetObj
  detection_count : Nat
  snapshot_b64 : Option String
  timestamp : Nat
  deriving Repr, DecidableEq

/-- A row of the `alerts` table. -/
structure AlertRecord where
  id : Nat
  camera_id : Option String
  location_id : String
  type : String
  severity : String
  track_id : Option Int
  class_name : Option String
  confidence : Option ℚ
  bbox : Option (List ℚ)
  snapshot_b64 : Option String
  description : Option String
  status : String
  reviewed_by : Option String
  reviewed_at : Option Nat
  created_at : Nat
  deriving Repr, DecidableEq

/-- A row of the `daily_stats` table; all counters default to zero
(schema `DEFAULT 0`). -/
structure StatsRow where
  location_id : String
  date : Nat
  total_transactions : Nat := 0
  total_items_scanned : Nat := 0
  total_alerts : Nat := 0
  alerts_reviewed : Nat := 0
  alerts_confirmed : Nat := 0
  estimated_loss_cents : Nat := 0
  detection_count : Nat := 0
  deriving Repr, DecidableEq

/-- The daily counters the controller touches. -/
inductive StatField where
  | detection_count
  | total_alerts
  | alerts_reviewed
  | alerts_confirmed
  deriving Repr, DecidableEq

/-- Read one counter of a stats row. -/
def StatsRow.get (r : StatsRow) : StatField → Nat
  | .detection_count => r.detection_count
  | .total_alerts => r.total_alerts
  | .alerts_reviewed => r.alerts_reviewed
  | .alerts_confirmed => r.alerts_confirmed

/-- Add `d` to one counter of a stats row. -/
def StatsRow.addTo (r : StatsRow) (f : StatField) (d : Nat) : StatsRow :=
  match f with
  | .detection_count => { r with detection_count := r.detection_count + d }
  | .total_alerts => { r with total_alerts := r.total_alerts + d }
  | .alerts_reviewed => { r with alerts_reviewed := r.alerts_reviewed + d }
  | .alerts_confirmed => { r with alerts_confirmed := r.alerts_confirmed + d }

/-- The whole database state. -/
structure DB where
  cameras : List Camera
  locations : List Location
  detections : List DetRecord
  alerts : List AlertRecord
  dailyStats : List StatsRow
  nextId : Nat
  deriving Repr, DecidableEq

/-- The `(location_id, date)` unique key test of `daily_stats`. -/
def rowKey (loc : String) (day : Nat) (r : StatsRow) : Bool :=
  r.location_id = loc && r.date = day

/-- Does `daily_stats` already hold a row for `(loc, day)`? -/
def hasRow (stats : List StatsRow) (loc : String) (day : Nat) : Bool :=
  stats.any (rowKey loc day)

/-- `UPDATE daily_stats SET field = field + d WHERE location_id = loc AND
date = day` — a plain update: an absent row is NOT created. -/
def updateStat (stats : List StatsRow) (loc : String) (day : Nat)
    (f : StatField) (d : Nat) : List StatsRow :=
  stats.map (fun r => if rowKey loc day r then r.addTo f d else r)

/-- `INSERT INTO daily_stats ... ON CONFLICT (location_id, date) DO UPDATE SET
field = daily_stats.field + EXCLUDED.field` — atomic upsert-with-addition:
the absent row is created with all counters zero except the incremented one. -/
def upsertStat (stats : List StatsRow) (loc : String) (day : Nat)
    (f : StatField) (d : Nat) : List StatsRow :=
  if hasRow stats loc day then
    updateStat stats loc day f d
  else
    stats ++ [StatsRow.addTo { location_id := loc, date := day } f d]

/-- Read counter `f` of the `(loc, day)` row, 0 when the row is absent. -/
def getStat (stats : List StatsRow) (loc : String) (day : Nat) (f : StatField) : Nat :=
  match stats.find? (rowKey loc day) with
  | some r => r.get f
  | none => 0

/-- The `WHERE id = $3` row test on `alerts`. -/
def idKey (id : Nat) (a : AlertRecord) : Bool :=
  a.id = id

/-- Request body of `POST /api/cv/detections`. `none` is an absent JSON field. -/
structure DetectionPayload where
  camera_id : Option String
  location_id : Option String
  timestamp : Option Nat
  frame_number : Option Nat
  detections : Option (List DetObj)
  snapshot_b64 : Option String
  fps : Option ℚ
  deriving Repr, DecidableEq

/-- Request body of `POST /api/cv/alerts`. -/
structure AlertPayload where
  camera_id : Option String
  location_id : Option String
  timestamp : Option Nat
  track_id : Option Int
  class_name : Option String
  confidence : Option ℚ
  bbox : Option (List ℚ)
  snapshot_b64 : Option String
  description : Option String
  deriving Repr, DecidableEq

/-- The JSON body of an HTTP response, restricted to the shapes the handlers emit. -/
inductive RespBody where
  | created (id : Nat)
  | errText (msg : String)
  | ack
  | alertRow (id : Nat) (status : String) (reviewed_at : Option Nat)
  deriving Repr, DecidableEq

/-- An HTTP response: status code plus body. -/
structure Resp where
  status : Nat
  body : RespBody
  deriving Repr, DecidableEq

/-- A Socket.IO room name. -/
inductive Room where
  | location (id : String)
  | tenant (id : String)
  deriving Repr, DecidableEq

/-- The `detection` event payload built by `postDetection`. -/
structure DetectionEventOut where
  camera_id : String
  location_id : String
  timestamp : Nat
  objects : List DetObj
  fps : ℚ
  deriving Repr, DecidableEq

/-- The `alert:new` event payload built by `postAlert` (raw body fields,
snapshot truncated to 100 chars). -/
structure AlertEventOut where
  id : Nat
  camera_id : String
  location_id : String
  type : String
  track_id : Option Int
  class_name : Option String
  confidence : Option ℚ
  bbox : Option (List ℚ)
  description : Option String
  snapshot_b64 : Option String
  created_at : Nat
  deriving Repr, DecidableEq

/-- One event message pushed through Socket.IO. -/
inductive EventMsg where
  | detection (p : DetectionEventOut)
  | alertNew (p : AlertEventOut)
  | alertCountUpdate (location_id : String)
  deriving Repr, DecidableEq

/-- One emission: either `io.to(room).emit(...)` or a global `io.emit(...)`. -/
inductive Emit where
  | toRoom (room : Room) (ev : EventMsg)
  | broadcast (ev : EventMsg)
  deriving Repr, DecidableEq

/-- The fanout environment of a request: whether `req.app.get("io")` is defined
and whether the emit call throws. -/
structure FanoutCtx where
  ioPresent : Bool
  emitThrows : Bool
  deriving Repr, DecidableEq

/-- Result of handling one request: new database, HTTP response, emitted events. -/
structure StepResult where
  db : DB
  resp : Resp
  emitted : List Emit
  deriving Repr, DecidableEq

/-- The hard-coded fallback location UUID of `cvController.js`
(lines 33 and 134). -/
def fallbackLocation : String := "2139ff48-35b8-423f-b4cb-64ca303ef625"

/-- `postDetection`, lines 23-38: `SELECT id, location_id FROM cameras WHERE
camera_id = $1 LIMIT 1`; camera UUID stays null and the location falls back to
the seeded UUID when the lookup is empty. -/
def resolveCamera (cams : List Camera) (cid : String) : Option String × String :=
  match cams.find? (fun c => c.camera_id = cid) with
  | some c => (some c.id, c.location_id)
  | none => (none, fallbackLocation)

/-- `postAlert`, lines 124-141: same lookup joined with `locations` to also get
the tenant id; any empty join result falls back. -/
def resolveCameraTenant (cams : List Camera) (locs : List Location) (cid : String) :
    Option String × String × Option String :=
  match cams.find? (fun c => c.camera_id = cid) with
  | some c =>
    match locs.find? (fun l => l.id = c.location_id) with
    | some l => (some c.id, c.location_id, some l.tenant_id)
    | none => (none, fallbackLocation, none)
  | none => (none, fallbackLocation, none)

/-- `POST /api/cv/detections` (`cvController.js` lines 7-98).
Validates presence of `camera_id`, `location_id`, `timestamp`, `detections`
(JS truthiness), resolves the camera, inserts a `cv_detections` row, upserts
`daily_stats.detection_count` for the payload timestamp's UTC day by
`detections.length`, then emits; the emit block is wrapped in its own
try/catch so a throwing emit is logged and swallowed and 201 is returned. -/
def postDetection (db : DB) (p : DetectionPayload) (f : FanoutCtx) : StepResult :=
  if truthyS p.camera_id && truthyS p.location_id && truthyN p.timestamp
      && p.detections.isSome then
    let camIdStr := p.camera_id.getD ""
    let ts := p.timestamp.getD 0
    let dets := p.detections.getD []
    let resolved := resolveCamera db.cameras camIdStr
    let newRec : DetRecord :=
      { id := db.nextId
        camera_id := resolved.1
        location_id := resolved.2
        frame_number := jsOrDefN p.frame_number 0
        detections := dets
        detection_count := dets.length
        snapshot_b64 := jsOrNullS p.snapshot_b64
        timestamp := ts }
    let stats1 := upsertStat db.dailyStats resolved.2 (dateOf ts) .detection_count dets.length
    let db1 : DB :=
      { db with
        detections := db.detections ++ [newRec]
        dailyStats := stats1
        nextId := db.nextId + 1 }
    let emitted : List Emit :=
      if f.ioPresent then
        if f.emitThrows then []
        else
          let payload : DetectionEventOut :=
            { camera_id := camIdStr
              location_id := resolved.2
              timestamp := ts
              objects := dets
              fps := jsOrDefQ p.fps 15 }
          [Emit.toRoom (.location resolved.2) (.detection payload),
           Emit.broadcast (.detection payload)]
      else []
    ⟨db1, ⟨201, .created newRec.id⟩, emitted⟩
  else
    ⟨db, ⟨400, .errText "Missing required fields"⟩, []⟩

/-- Severity ternary of `postAlert` line 152:
`confidence >= 0.8 ? "high" : confidence >= 0.5 ? "medium" : "low"`,
with JS semantics on an absent confidence (comparison is false). -/
def severityOf (confidence : Option ℚ) : String :=
  if jsGE confidence 0.8 then "high"
  else if jsGE confidence 0.5 then "medium"
  else "low"

/-- `snapshot_b64 ? snapshot_b64.substring(0, 100) + "..." : null`
(`postAlert` line 188). -/
def truncSnapshot : Option String → Option String
  | none => none
  | some s => if s = "" then none else some (String.append (s.take 100) "...")

/-- `POST /api/cv/alerts` (`cvController.js` lines 104-205).
Validates presence of `camera_id`, `location_id`, `timestamp`, resolves the
camera (joined with its location for the tenant id), inserts an `alerts` row
with status `open` and derived severity, upserts `daily_stats.total_alerts`
for the payload timestamp's UTC day by 1, then emits. The emit block is NOT
wrapped in a try/catch of its own: a throwing emit propagates to the outer
catch and yields a 500 response, the inserted rows staying in place. -/
def postAlert (db : DB) (p : AlertPayload) (f : FanoutCtx) (now : Nat) : StepResult :=
  if truthyS p.camera_id && truthyS p.location_id && truthyN p.timestamp then
    let camIdStr := p.camera_id.getD ""
    let ts := p.timestamp.getD 0
    let resolved := resolveCameraTenant db.cameras db.locations camIdStr
    let locUuid := resolved.2.1
    let tenantId := resolved.2.2
    let newAlert : AlertRecord :=
      { id := db.nextId
        camera_id := resolved.1
        location_id := locUuid
        type := "non_scan"
        severity := severityOf p.confidence
        track_id := jsOrNullI p.track_id
        class_name := jsOrNullS p.class_name
        confidence := jsOrNullQ p.confidence
        bbox := p.bbox
        snapshot_b64 := jsOrNullS p.snapshot_b64
        description := jsOrNullS p.description
        status := "open"
        reviewed_by := none
        reviewed_at := none
        created_at := now }
    let stats1 := upsertStat db.dailyStats locUuid (dateOf ts) .total_alerts 1
    let db1 : DB :=
      { db with
        alerts := db.alerts ++ [newAlert]
        dailyStats := stats1
        nextId := db.nextId + 1 }
    if f.ioPresent then
      if f.emitThrows then
        ⟨db1, ⟨500, .errText "Internal server error"⟩, []⟩
      else
        let payload : AlertEventOut :=
          { id := newAlert.id
            camera_id := camIdStr
            location_id := locUuid
            type := "non_scan"
            track_id := p.track_id
            class_name := p.class_name
            confidence := p.confidence
            bbox := p.bbox
            description := p.description
            snapshot_b64 := truncSnapshot p.snapshot_b64
            created_at := now }
        let tenantEmits : List Emit :=
          match tenantId with
          | some t => if t ≠ "" then [Emit.toRoom (.tenant t) (.alertNew payload)] else []
          | none => []
        ⟨db1, ⟨201, .created newAlert.id⟩,
          tenantEmits ++
            [Emit.toRoom (.location locUuid) (.alertNew payload),
             Emit.broadcast (.alertCountUpdate locUuid)]⟩
    else
      ⟨db1, ⟨201, .created newAlert.id⟩, []⟩
  else
    ⟨db, ⟨400, .errText "Missing required fields"⟩, []⟩

/-- `POST /api/cv/heartbeat` (`cvController.js` lines 211-224): logs and
acknowledges; no persistence or fanout side effect. -/
def postHeartbeat (db : DB) : StepResult :=
  ⟨db, ⟨200, .ack⟩, []⟩

/-- The valid lifecycle statuses of `updateAlert` line 312. -/
def validStatuses : List String := ["open", "reviewed", "dismissed", "resolved"]

/-- `PATCH /api/cv/alerts/:id` (`cvController.js` lines 308-355).
Rejects a truthy status outside `validStatuses` with 400 before touching the
store; otherwise runs the COALESCE update, answers 404 when the id matches no
row, and for status `reviewed`/`resolved` re-reads the alert and runs a plain
`UPDATE daily_stats` (+1 on the matching counter, no row creation) keyed on
the alert's original `created_at` day. -/
def updateAlert (db : DB) (id : Nat) (status reviewed_by : Option String)
    (now : Nat) : DB × Resp :=
  if truthyS status && !(validStatuses.contains (status.getD "")) then
    (db, ⟨400, .errText "Invalid status. Must be one of: open, reviewed, dismissed, resolved"⟩)
  else
    let s1 := jsOrNullS status
    let rb1 := jsOrNullS reviewed_by
    match db.alerts.find? (idKey id) with
    | none => (db, ⟨404, .errText "Alert not found"⟩)
    | some a =>
      let newStatus := match s1 with | some s => s | none => a.status
      let newRb := match rb1 with | some r => some r | none => a.reviewed_by
      let newRAt :=
        if s1 = some "reviewed" ∨ s1 = some "dismissed" ∨ s1 = some "resolved" then
          some now
        else a.reviewed_at
      let a1 : AlertRecord :=
        { a with status := newStatus, reviewed_by := newRb, reviewed_at := newRAt }
      let db1 : DB :=
        { db with alerts := db.alerts.map (fun x => if idKey id x then a1 else x) }
      let db2 : DB :=
        if status = some "reviewed" ∨ status = some "resolved" then
          let fld : StatField :=
            if status = some "resolved" then .alerts_confirmed else .alerts_reviewed
          { db1 with
            dailyStats := updateStat db1.dailyStats a.location_id (dateOf a.created_at) fld 1 }
        else db1
      (db2, ⟨200, .alertRow a1.id a1.status a1.reviewed_at⟩)

/-- Split a character list at commas (the segments of `split(",")`). -/
def splitCommaChars : List Char → List (List Char)
  | [] => [[]]
  | c :: rest =>
    match splitCommaChars rest with
    | [] => [[]]
    | cur :: done => if c = ',' then [] :: cur :: done else (c :: cur) :: done

/-- JS whitespace test used by `trim()`. -/
def isSpaceChar (c : Char) : Bool :=
  c = ' ' || c = '\t' || c = '\n' || c = '\r'

/-- `trim()`: strip leading and trailing whitespace. -/
def trimChars (cs : List Char) : List Char :=
  ((cs.dropWhile isSpaceChar).reverse.dropWhile isSpaceChar).reverse

/-- `CV_API_KEYS` parsing of `apiKeyAuth.js` lines 11-14:
`split(",").map(trim).filter(Boolean)`, spelled out over the character list
of the environment string. -/
def parseKeys (env : String) : List String :=
  ((splitCommaChars env.toList).map (fun cs => String.mk (trimChars cs))).filter
    (fun k => k ≠ "")

/-- Outcome of the middleware: pass to the handler, or respond immediately. -/
inductive AuthOutcome where
  | pass
  | fail (status : Nat) (msg : String)
  deriving Repr, DecidableEq

/-- `apiKeyAuth` middleware (`apiKeyAuth.js` lines 5-28): 401 when the
`X-API-Key` header is missing (or empty, JS truthiness), 500 when no keys are
configured, 403 when the key is not among the configured ones. -/
def apiKeyAuth (envKeys : String) (header : Option String) : AuthOutcome :=
  if !truthyS header then .fail 401 "Missing X-API-Key header"
  else if parseKeys envKeys = [] then .fail 500 "API keys not configured"
  else if (parseKeys envKeys).contains (header.getD "") then .pass
  else .fail 403 "Invalid API key"

/-- `router.post("/detections", apiKeyAuth, postDetection)` (`cv.js` line 15). -/
def routeDetections (envKeys : String) (header : Option String) (db : DB)
    (p : DetectionPayload) (f : FanoutCtx) : StepResult :=
  match apiKeyAuth envKeys header with
  | .fail s m => ⟨db, ⟨s, .errText m⟩, []⟩
  | .pass => postDetection db p f

/-- `router.post("/alerts", apiKeyAuth, postAlert)` (`cv.js` line 16). -/
def routeAlerts (envKeys : String) (header : Option String) (db : DB)
    (p : AlertPayload) (f : FanoutCtx) (now : Nat) : StepResult :=
  match apiKeyAuth envKeys header with
  | .fail s m => ⟨db, ⟨s, .errText m⟩, []⟩
  | .pass => postAlert db p f now

/-- `router.post("/heartbeat", apiKeyAuth, postHeartbeat)` (`cv.js` line 17). -/
def routeHeartbeat (envKeys : String) (header : Option String) (db : DB) : StepResult :=
  match apiKeyAuth envKeys header with
  | .fail s m => ⟨db, ⟨s, .errText m⟩, []⟩
  | .pass => postHeartbeat db

/-- The error-taxonomy kind `Unauthorized` of the spec (§7) as surfaced by the
middleware: HTTP 401 (missing credential) or 403 (invalid credential). -/
def isUnauthorized (r : Resp) : Prop :=
  r.status = 401 ∨ r.status = 403

/-- A database with no rows at all. -/
def emptyDB : DB :=
  { cameras := [], locations := [], detections := [], alerts := [],
    dailyStats := [], nextId := 0 }

/-- A sample detected object. -/
def obj0 : DetObj :=
  { class_name := "person", confidence := 9/10, bbox := [], track_id := none }

/-- A valid detection payload (timestamp 5 ms after the epoch, one object). -/
def detPayload0 : DetectionPayload :=
  { camera_id := some "cam-1", location_id := some "loc-01", timestamp := some 5,
    frame_number := none, detections := some [obj0], snapshot_b64 := none,
    fps := none }

/-- A valid alert payload with confidence 0.92. -/
def alertPayload0 : AlertPayload :=
  { camera_id := some "cam-1", location_id := some "loc-01", timestamp := some 5,
    track_id := none, class_name := some "person", confidence := some (92/100),
    bbox := none, snapshot_b64 := none, description := none }

/-- The alert payload with confidence exactly 0.8 (boundary case). -/
def alertPayloadBoundary : AlertPayload :=
  { alertPayload0 with confidence := some (8/10) }

/-- The alert payload with the optional confidence field absent. -/
def alertPayloadNoConf : AlertPayload :=
  { alertPayload0 with confidence := none }

/-- A stored open alert at location `"L"`, created at epoch ms 0. -/
def alertRec0 : AlertRecord :=
  { id := 1, camera_id := none, location_id := "L", type := "non_scan",
    severity := "low", track_id := none, class_name := none, confidence := none,
    bbox := none, snapshot_b64 := none, description := none, status := "open",
    reviewed_by := none, reviewed_at := none, created_at := 0 }

/-- A database holding the open alert and its `(location, creation-day)`
stats row (all counters zero). -/
def dbAlertWithRow : DB :=
  { cameras := [], locations := [], detections := [], alerts := [alertRec0],
    dailyStats := [{ location_id := "L", date := 0 }], nextId := 2 }

/-- A database holding the open alert but no stats row at all. -/
def dbAlertNoRow : DB :=
  { cameras := [], locations := [], detections := [], alerts := [alertRec0],
    dailyStats := [], nextId := 2 }

/-! ### Helper lemmas about the store primitives -/

theorem find?_map_update {α : Type} (p : α → Bool) (g : α → α)
    (hg : ∀ x, p x = true → p (g x) = true) :
    ∀ l : List α,
      (l.map (fun x => if p x then g x else x)).find? p = (l.find? p).map g := by
  intro l
  induction l with
  | nil => rfl
  | cons a l ih =>
    cases hpa : p a with
    | true =>
      rw [List.map_cons, if_pos hpa, List.find?_cons_of_pos _ (hg a hpa),
        List.find?_cons_of_pos _ hpa]
      rfl
    | false =>
      have hna : ¬ p a = true := by simp [hpa]
      rw [List.map_cons, if_neg hna, List.find?_cons_of_neg _ hna,
        List.find?_cons_of_neg _ hna, ih]

theorem map_update_of_any_false {α : Type} (p : α → Bool) (g : α → α)
    (l : List α) (h : l.any p = false) :
    l.map (fun x => if p x then g x else x) = l := by
  induction l with
  | nil => rfl
  | cons a l ih =>
    rw [List.any_cons, Bool.or_eq_false_iff] at h
    have hna : ¬ p a = true := by simp [h.1]
    rw [List.map_cons, if_neg hna, ih h.2]

theorem any_map_update {α : Type} (p q : α → Bool) (g : α → α)
    (hg : ∀ x, q (g x) = q x) (l : List α) :
    (l.map (fun x => if p x then g x else x)).any q = l.any q := by
  induction l with
  | nil => rfl
  | cons a l ih =>
    cases hpa : p a with
    | true =>
      rw [List.map_cons, List.any_cons, List.any_cons, if_pos hpa, hg, ih]
    | false =>
      have hna : ¬ p a = true := by simp [hpa]
      rw [List.map_cons, List.any_cons, List.any_cons, if_neg hna, ih]

theorem get_addTo (r : StatsRow) (f : StatField) (d : Nat) :
    (r.addTo f d).get f = r.get f + d := by
  cases f <;> rfl

theorem rowKey_addTo (loc : String) (day : Nat) (r : StatsRow)
    (f : StatField) (d : Nat) :
    rowKey loc day (r.addTo f d) = rowKey loc day r := by
  cases f <;> rfl

theorem getStat_updateStat (stats : List StatsRow) (loc : String) (day : Nat)
    (f : StatField) (d : Nat) (h : hasRow stats loc day = true) :
    getStat (updateStat stats loc day f d) loc day f
      = getStat stats loc day f + d := by
  unfold getStat updateStat
  rw [find?_map_update (rowKey loc day) (fun r => r.addTo f d)
      (fun x hx => by rw [rowKey_addTo]; exact hx)]
  cases hf : stats.find? (rowKey loc day) with
  | none =>
    exfalso
    rw [List.find?_eq_none] at hf
    unfold hasRow at h
    rw [List.any_eq_true] at h
    obtain ⟨x, hx, hpx⟩ := h
    exact hf x hx hpx
  | some r =>
    simp [get_addTo]

theorem updateStat_of_not_hasRow (stats : List StatsRow) (loc : String)
    (day : Nat) (f : StatField) (d : Nat) (h : hasRow stats loc day = false) :
    updateStat stats loc day f d = stats := by
  unfold hasRow at h
  exact map_update_of_any_false _ _ _ h

theorem hasRow_updateStat (stats : List StatsRow) (loc day loc2 day2 f d) :
    hasRow (updateStat stats loc day f d) loc2 day2 = hasRow stats loc2 day2 := by
  unfold hasRow updateStat
  exact any_map_update _ _ _ (fun x => by rw [rowKey_addTo]) _

theorem rowKey_self (loc : String) (day : Nat) (r : StatsRow)
    (h1 : r.location_id = loc) (h2 : r.date = day) :
    rowKey loc day r = true := by
  simp [rowKey, h1, h2]

theorem getStat_upsertStat (stats : List StatsRow) (loc : String) (day : Nat)
    (f : StatField) (d : Nat) :
    getStat (upsertStat stats loc day f d) loc day f
      = getStat stats loc day f + d := by
  unfold upsertStat
  by_cases h : hasRow stats loc day = true
  · rw [if_pos h, getStat_updateStat _ _ _ _ _ h]
  · have h0 : hasRow stats loc day = false := by
      cases hln : hasRow stats loc day
      · rfl
      · exact absurd hln h
    rw [if_neg (by rw [h0]; exact Bool.false_ne_true)]
    have hnone : stats.find? (rowKey loc day) = none := by
      rw [List.find?_eq_none]
      unfold hasRow at h0
      rw [List.any_eq_false] at h0
      exact h0
    unfold getStat
    rw [List.find?_append, hnone]
    have hkey : rowKey loc day (StatsRow.addTo { location_id := loc, date := day } f d) = true := by
      rw [rowKey_addTo]
      exact rowKey_self _ _ _ rfl rfl
    rw [List.find?_cons_of_pos _ hkey]
    cases f <;> simp [StatsRow.get, StatsRow.addTo]

theorem hasRow_upsertStat (stats : List StatsRow) (loc : String) (day : Nat)
    (f : StatField) (d : Nat) :
    hasRow (upsertStat stats loc day f d) loc day = true := by
  unfold upsertStat
  by_cases h : hasRow stats loc day = true
  · rw [if_pos h, hasRow_updateStat]
    exact h
  · have h0 : hasRow stats loc day = false := by
      cases hln : hasRow stats loc day
      · rfl
      · exact absurd hln h
    rw [if_neg (by rw [h0]; exact Bool.false_ne_true)]
    unfold hasRow
    rw [List.any_append]
    have hkey : rowKey loc day (StatsRow.addTo { location_id := loc, date := day } f d) = true := by
      rw [rowKey_addTo]
      exact rowKey_self _ _ _ rfl rfl
    simp [hkey]

theorem find?_alerts_after_update (alerts : List AlertRecord) (id : Nat)
    (a1 : AlertRecord) (h1 : a1.id = id) :
    ∀ a : AlertRecord, alerts.find? (idKey id) = some a →
      (alerts.map (fun x => if idKey id x then a1 else x)).find? (idKey id) = some a1 := by
  intro a hfind
  rw [find?_map_update (idKey id) (fun _ => a1) (fun x _ => by simp [idKey, h1]), hfind]
  rfl

/-- Characterization of `updateAlert` on a valid non-empty status when the
alert exists: the store update and the response, spelled out. -/
theorem updateAlert_status_eq (db : DB) (id : Nat) (rb : Option String)
    (now : Nat) (a : AlertRecord) (s : String)
    (hfind : db.alerts.find? (idKey id) = some a)
    (hvalid : validStatuses.contains s = true) (hs0 : s ≠ "") :
    updateAlert db id (some s) rb now
      = (let a1 : AlertRecord :=
           { a with
             status := s
             reviewed_by :=
               match jsOrNullS rb with
               | some r => some r
               | none => a.reviewed_by
             reviewed_at :=
               if s = "reviewed" ∨ s = "dismissed" ∨ s = "resolved" then some now
               else a.reviewed_at }
         let db1 : DB :=
           { db with alerts := db.alerts.map (fun x => if idKey id x then a1 else x) }
         let db2 : DB :=
           if s = "reviewed" ∨ s = "resolved" then
             { db1 with
               dailyStats :=
                 updateStat db1.dailyStats a.location_id (dateOf a.created_at)
                   (if s = "resolved" then .alerts_confirmed else .alerts_reviewed) 1 }
           else db1
         (db2, ⟨200, .alertRow a.id s a1.reviewed_at⟩)) := by
  unfold updateAlert
  have hmem : s ∈ validStatuses := by
    rw [← List.elem_iff]
    exact hvalid
  have hg : ¬((truthyS (some s) && !(validStatuses.contains ((some s).getD ""))) = true) := by
    simp [truthyS, hs0, hmem]
  rw [if_neg hg, hfind]
  simp [jsOrNullS, hs0]

/-- Claim C1 (counterexample): a valid detection payload whose timestamp lies
on UTC day 0, handled while the current day is 1, leaves `detection_count`
for (resolved location, day 1) untouched; the whole increment lands on the
payload timestamp's day 0. So the aggregate is not keyed on "today". -/
theorem detection_today_cex :
    (postDetection emptyDB detPayload0 ⟨false, false⟩).resp.status = 201
    ∧ (detPayload0.detections.getD []).length = 1
    ∧ dateOf 5 = 0
    ∧ getStat (postDetection emptyDB detPayload0 ⟨false, false⟩).db.dailyStats
        fallbackLocation 1 .detection_count = 0
    ∧ getStat (postDetection emptyDB detPayload0 ⟨false, false⟩).db.dailyStats
        fallbackLocation 0 .detection_count = 1 := by
  decide

/-- Claim C1 (amended): for every valid detection payload, a successful
`postDetection` increments the daily `detection_count` by exactly
`detections.length` for the resolved location and the UTC calendar day of the
payload's own timestamp (equal to today only when that timestamp is from
today), creating the (location, date) row if absent, and answers 201 with the
new record id. -/
theorem detection_increments_payload_day (db : DB) (p : DetectionPayload)
    (f : FanoutCtx) (c l : String) (ts : Nat) (ds : List DetObj)
    (hc : p.camera_id = some c) (hc0 : c ≠ "")
    (hl : p.location_id = some l) (hl0 : l ≠ "")
    (ht : p.timestamp = some ts) (ht0 : ts ≠ 0)
    (hd : p.detections = some ds) :
    (postDetection db p f).resp = ⟨201, .created db.nextId⟩
    ∧ getStat (postDetection db p f).db.dailyStats (resolveCamera db.cameras c).2
        (dateOf ts) .detection_count
      = getStat db.dailyStats (resolveCamera db.cameras c).2 (dateOf ts)
          .detection_count + ds.length
    ∧ hasRow (postDetection db p f).db.dailyStats (resolveCamera db.cameras c).2
        (dateOf ts) = true := by
  have hguard : (truthyS p.camera_id && truthyS p.location_id
      && truthyN p.timestamp && p.detections.isSome) = true := by
    simp [hc, hl, ht, hd, truthyS, truthyN, hc0, hl0, ht0]
  unfold postDetection
  rw [if_pos hguard]
  refine ⟨rfl, ?_, ?_⟩
  · rw [hc, ht, hd]
    exact getStat_upsertStat _ _ _ _ _
  · rw [hc, ht]
    exact hasRow_upsertStat _ _ _ _ _

/-- Witness for C1's amended theorem at a concrete payload. -/
theorem detection_increments_payload_day_witness :
    (postDetection emptyDB detPayload0 ⟨false, false⟩).resp = ⟨201, .created 0⟩
    ∧ getStat (postDetection emptyDB detPayload0 ⟨false, false⟩).db.dailyStats
        (resolveCamera emptyDB.cameras "cam-1").2 (dateOf 5) .detection_count
      = getStat emptyDB.dailyStats (resolveCamera emptyDB.cameras "cam-1").2
          (dateOf 5) .detection_count + [obj0].length
    ∧ hasRow (postDetection emptyDB detPayload0 ⟨false, false⟩).db.dailyStats
        (resolveCamera emptyDB.cameras "cam-1").2 (dateOf 5) = true :=
  detection_increments_payload_day emptyDB detPayload0 ⟨false, false⟩ "cam-1" "loc-01"
    5 [obj0] rfl (by decide) rfl (by decide) rfl (by decide) rfl

/-- `updateAlert` with status `resolved` on an existing alert, fully reduced. -/
theorem updateAlert_resolved_eq (db : DB) (id : Nat) (rb : Option String)
    (now : Nat) (a : AlertRecord)
    (hfind : db.alerts.find? (idKey id) = some a) :
    updateAlert db id (some "resolved") rb now
      = ({ db with
            alerts := db.alerts.map (fun x => if idKey id x then
              { a with
                status := "resolved"
                reviewed_by :=
                  match jsOrNullS rb with
                  | some r => some r
                  | none => a.reviewed_by
                reviewed_at := some now } else x)
            dailyStats :=
              updateStat db.dailyStats a.location_id (dateOf a.created_at)
                .alerts_confirmed 1 },
         ⟨200, .alertRow a.id "resolved" (some now)⟩) := by
  rw [updateAlert_status_eq db id rb now a "resolved" hfind (by decide) (by decide)]
  simp

/-- `updateAlert` with status `reviewed` on an existing alert, fully reduced. -/
theorem updateAlert_reviewed_eq (db : DB) (id : Nat) (rb : Option String)
    (now : Nat) (a : AlertRecord)
    (hfind : db.alerts.find? (idKey id) = some a) :
    updateAlert db id (some "reviewed") rb now
      = ({ db with
            alerts := db.alerts.map (fun x => if idKey id x then
              { a with
                status := "reviewed"
                reviewed_by :=
                  match jsOrNullS rb with
                  | some r => some r
                  | none => a.reviewed_by
                reviewed_at := some now } else x)
            dailyStats :=
              updateStat db.dailyStats a.location_id (dateOf a.created_at)
                .alerts_reviewed 1 },
         ⟨200, .alertRow a.id "reviewed" (some now)⟩) := by
  rw [updateAlert_status_eq db id rb now a "reviewed" hfind (by decide) (by decide)]
  simp

/-- Claim C2 (counterexample): resolving the same open alert twice leaves
`alerts_confirmed` at 2, not 1 — the second, identical call increments the
aggregate again instead of being idempotent. -/
theorem resolve_not_idempotent_cex :
    getStat (updateAlert dbAlertWithRow 1 (some "resolved") none 10).1.dailyStats
        "L" 0 .alerts_confirmed = 1
    ∧ getStat (updateAlert (updateAlert dbAlertWithRow 1 (some "resolved") none 10).1
          1 (some "resolved") none 20).1.dailyStats "L" 0 .alerts_confirmed = 2 := by
  decide

/-- Claim C2 (amended): `update_alert(id, status = resolved)` on an open alert
whose (location, creation-day) stats row exists increments `alerts_confirmed`
by exactly 1 for that call, and a repeated call with the same status
increments it by 1 again — one increment per matching call, not per alert. -/
theorem resolve_increments_per_call (db : DB) (id : Nat) (rb : Option String)
    (now1 now2 : Nat) (a : AlertRecord)
    (hfind : db.alerts.find? (idKey id) = some a)
    (hopen : a.status = "open")
    (hrow : hasRow db.dailyStats a.location_id (dateOf a.created_at) = true) :
    getStat (updateAlert db id (some "resolved") rb now1).1.dailyStats
        a.location_id (dateOf a.created_at) .alerts_confirmed
      = getStat db.dailyStats a.location_id (dateOf a.created_at)
          .alerts_confirmed + 1
    ∧ getStat (updateAlert (updateAlert db id (some "resolved") rb now1).1 id
          (some "resolved") rb now2).1.dailyStats
        a.location_id (dateOf a.created_at) .alerts_confirmed
      = getStat db.dailyStats a.location_id (dateOf a.created_at)
          .alerts_confirmed + 2 := by
  have haid : a.id = id := by
    have h := List.find?_some hfind
    simpa [idKey] using h
  constructor
  · rw [updateAlert_resolved_eq db id rb now1 a hfind]
    exact getStat_updateStat _ _ _ _ _ hrow
  · rw [updateAlert_resolved_eq db id rb now1 a hfind]
    have hfind2 := find?_alerts_after_update db.alerts id
      { a with
        status := "resolved"
        reviewed_by :=
          match jsOrNullS rb with
          | some r => some r
          | none => a.reviewed_by
        reviewed_at := some now1 } (by simpa using haid) a hfind
    rw [updateAlert_resolved_eq _ id rb now2 _ hfind2]
    show getStat (updateStat
        (updateStat db.dailyStats a.location_id (dateOf a.created_at)
          .alerts_confirmed 1)
        a.location_id (dateOf a.created_at) .alerts_confirmed 1)
        a.location_id (dateOf a.created_at) .alerts_confirmed
      = getStat db.dailyStats a.location_id (dateOf a.created_at)
          .alerts_confirmed + 2
    have hrow2 : hasRow
        (updateStat db.dailyStats a.location_id (dateOf a.created_at)
          .alerts_confirmed 1)
        a.location_id (dateOf a.created_at) = true := by
      rw [hasRow_updateStat]
      exact hrow
    rw [getStat_updateStat _ _ _ _ _ hrow2, getStat_updateStat _ _ _ _ _ hrow]

/-- Witness for C2's amended theorem at a concrete database. -/
theorem resolve_increments_per_call_witness :
    getStat (updateAlert dbAlertWithRow 1 (some "resolved") none 10).1.dailyStats
        "L" 0 .alerts_confirmed = 1
    ∧ getStat (updateAlert (updateAlert dbAlertWithRow 1 (some "resolved") none 10).1
          1 (some "resolved") none 20).1.dailyStats "L" 0 .alerts_confirmed = 2 :=
  resolve_increments_per_call dbAlertWithRow 1 none 10 20 alertRec0
    (by decide) rfl (by decide)

/-- Claim C3 (counterexample): resolving an alert whose (location,
creation-day) stats row is absent succeeds (200) and performs the status
transition, but creates no `daily_stats` row and adds no delta — the update
is a plain `UPDATE`, not the create-if-absent increment the claim requires. -/
theorem review_no_upsert_cex :
    (updateAlert dbAlertNoRow 1 (some "resolved") none 10).2.status = 200
    ∧ (updateAlert dbAlertNoRow 1 (some "resolved") none 10).1.alerts.map
        AlertRecord.status = ["resolved"]
    ∧ (updateAlert dbAlertNoRow 1 (some "resolved") none 10).1.dailyStats = [] := by
  decide

/-- Claim C3 (amended): after a successful `updateAlert` transition to
`reviewed` (resp. `resolved`), the daily `alerts_reviewed` (resp.
`alerts_confirmed`) for (alert's location, alert's original creation day) is
incremented by 1 when that (location, date) row already exists; when the row
is absent the plain UPDATE is a no-op — no row is created and the increment
is silently lost. -/
theorem review_increment_no_row_creation (db : DB) (id : Nat)
    (rb : Option String) (now : Nat) (a : AlertRecord) (s : String)
    (hfind : db.alerts.find? (idKey id) = some a)
    (hs : s = "reviewed" ∨ s = "resolved") :
    (updateAlert db id (some s) rb now).2.status = 200
    ∧ (hasRow db.dailyStats a.location_id (dateOf a.created_at) = true →
        getStat (updateAlert db id (some s) rb now).1.dailyStats a.location_id
            (dateOf a.created_at)
            (if s = "resolved" then StatField.alerts_confirmed else .alerts_reviewed)
          = getStat db.dailyStats a.location_id (dateOf a.created_at)
              (if s = "resolved" then StatField.alerts_confirmed else .alerts_reviewed)
            + 1)
    ∧ (hasRow db.dailyStats a.location_id (dateOf a.created_at) = false →
        (updateAlert db id (some s) rb now).1.dailyStats = db.dailyStats) := by
  rcases hs with h | h <;> subst h
  · rw [updateAlert_reviewed_eq db id rb now a hfind]
    refine ⟨rfl, ?_, ?_⟩
    · intro hrow
      exact getStat_updateStat _ _ _ _ _ hrow
    · intro h0
      exact updateStat_of_not_hasRow _ _ _ _ _ h0
  · rw [updateAlert_resolved_eq db id rb now a hfind]
    refine ⟨rfl, ?_, ?_⟩
    · intro hrow
      exact getStat_updateStat _ _ _ _ _ hrow
    · intro h0
      exact updateStat_of_not_hasRow _ _ _ _ _ h0

/-- Witness for C3's amended theorem at a concrete database. -/
theorem review_increment_no_row_creation_witness :
    (updateAlert dbAlertNoRow 1 (some "resolved") none 10).2.status = 200
    ∧ (hasRow dbAlertNoRow.dailyStats "L" 0 = true →
        getStat (updateAlert dbAlertNoRow 1 (some "resolved") none 10).1.dailyStats
            "L" 0 StatField.alerts_confirmed
          = getStat dbAlertNoRow.dailyStats "L" 0 StatField.alerts_confirmed + 1)
    ∧ (hasRow dbAlertNoRow.dailyStats "L" 0 = false →
        (updateAlert dbAlertNoRow 1 (some "resolved") none 10).1.dailyStats
          = dbAlertNoRow.dailyStats) :=
  review_increment_no_row_creation dbAlertNoRow 1 none 10 alertRec0 "resolved"
    (by decide) (Or.inr rfl)

/-- Claim C4: for every alert payload carrying a confidence value, the stored
severity follows the fixed thresholds — `high` iff confidence ≥ 0.8, `medium`
iff 0.5 ≤ confidence < 0.8, else `low` — and the boundary values 0.8 and 0.5
map to `high` and `medium` respectively. -/
theorem severity_thresholds (db : DB) (p : AlertPayload) (f : FanoutCtx)
    (now : Nat) (c l : String) (ts : Nat) (q : ℚ)
    (hc : p.camera_id = some c) (hc0 : c ≠ "")
    (hl : p.location_id = some l) (hl0 : l ≠ "")
    (ht : p.timestamp = some ts) (ht0 : ts ≠ 0)
    (hq : p.confidence = some q) :
    ∃ rec : AlertRecord,
      (postAlert db p f now).db.alerts = db.alerts ++ [rec]
      ∧ rec.severity
          = (if (0.8 : ℚ) ≤ q then "high"
             else if (0.5 : ℚ) ≤ q then "medium" else "low")
      ∧ (q = 0.8 → rec.severity = "high")
      ∧ (q = 0.5 → rec.severity = "medium") := by
  have hguard : (truthyS p.camera_id && truthyS p.location_id
      && truthyN p.timestamp) = true := by
    simp [hc, hl, ht, truthyS, truthyN, hc0, hl0, ht0]
  have hsev : severityOf p.confidence
      = (if (0.8 : ℚ) ≤ q then "high"
         else if (0.5 : ℚ) ≤ q then "medium" else "low") := by
    simp [severityOf, jsGE, hq]
  unfold postAlert
  rw [if_pos hguard]
  obtain ⟨io, et⟩ := f
  cases io <;> cases et <;>
    exact ⟨_, rfl, hsev,
      fun hb => by subst hb; exact hsev.trans (by norm_num),
      fun hb => by subst hb; exact hsev.trans (by norm_num)⟩

/-- Witness for C4 at the 0.8 boundary payload. -/
theorem severity_thresholds_witness :
    ∃ rec : AlertRecord,
      (postAlert emptyDB alertPayloadBoundary ⟨false, false⟩ 5).db.alerts
        = emptyDB.alerts ++ [rec]
      ∧ rec.severity
          = (if (0.8 : ℚ) ≤ 8/10 then "high"
             else if (0.5 : ℚ) ≤ 8/10 then "medium" else "low")
      ∧ ((8/10 : ℚ) = 0.8 → rec.severity = "high")
      ∧ ((8/10 : ℚ) = 0.5 → rec.severity = "medium") :=
  severity_thresholds emptyDB alertPayloadBoundary ⟨false, false⟩ 5 "cam-1" "loc-01"
    5 (8/10) rfl (by decide) rfl (by decide) rfl (by decide) rfl

/-- Claim C5: an ingestion payload whose camera string matches no registered
camera is still stored — `postDetection` answers 201 and both handlers append
a record with a null camera reference and the fallback location. (The alert
201 is stated for runs whose fanout emit does not throw; a throwing emit is
claim C6's concern, unrelated to camera resolution.) -/
theorem unknown_camera_fallback (db : DB) (p : DetectionPayload)
    (pa : AlertPayload) (f : FanoutCtx) (now : Nat) (c l : String)
    (ts : Nat) (ds : List DetObj)
    (hnf : db.cameras.find? (fun cam => cam.camera_id = c) = none)
    (hpc : p.camera_id = some c) (hc0 : c ≠ "")
    (hpl : p.location_id = some l) (hl0 : l ≠ "")
    (hpt : p.timestamp = some ts) (ht0 : ts ≠ 0)
    (hpd : p.detections = some ds)
    (hac : pa.camera_id = some c) (hal : pa.location_id = some l)
    (hat : pa.timestamp = some ts) :
    ((postDetection db p f).resp.status = 201
      ∧ ∃ rec : DetRecord,
          (postDetection db p f).db.detections = db.detections ++ [rec]
          ∧ rec.camera_id = none ∧ rec.location_id = fallbackLocation)
    ∧ ((f.emitThrows = false → (postAlert db pa f now).resp.status = 201)
      ∧ ∃ rec : AlertRecord,
          (postAlert db pa f now).db.alerts = db.alerts ++ [rec]
          ∧ rec.camera_id = none ∧ rec.location_id = fallbackLocation) := by
  have hres : resolveCamera db.cameras c = (none, fallbackLocation) := by
    unfold resolveCamera
    rw [hnf]
  have hrest : resolveCameraTenant db.cameras db.locations c
      = (none, fallbackLocation, none) := by
    unfold resolveCameraTenant
    rw [hnf]
  have hguard1 : (truthyS p.camera_id && truthyS p.location_id
      && truthyN p.timestamp && p.detections.isSome) = true := by
    simp [hpc, hpl, hpt, hpd, truthyS, truthyN, hc0, hl0, ht0]
  have hguard2 : (truthyS pa.camera_id && truthyS pa.location_id
      && truthyN pa.timestamp) = true := by
    simp [hac, hal, hat, truthyS, truthyN, hc0, hl0, ht0]
  unfold postDetection postAlert
  rw [if_pos hguard1, if_pos hguard2]
  simp only [hpc, hpt, hpd, hac, hat, Option.getD_some]
  rw [hres, hrest]
  obtain ⟨io, et⟩ := f
  cases io <;> cases et
  · exact ⟨⟨True.intro, ⟨_, rfl, rfl, rfl⟩⟩, ⟨fun _ => rfl, ⟨_, rfl, rfl, rfl⟩⟩⟩
  · exact ⟨⟨True.intro, ⟨_, rfl, rfl, rfl⟩⟩, ⟨fun _ => rfl, ⟨_, rfl, rfl, rfl⟩⟩⟩
  · exact ⟨⟨True.intro, ⟨_, rfl, rfl, rfl⟩⟩, ⟨fun _ => rfl, ⟨_, rfl, rfl, rfl⟩⟩⟩
  · exact ⟨⟨True.intro, ⟨_, rfl, rfl, rfl⟩⟩, ⟨fun h => absurd h (by decide), ⟨_, rfl, rfl, rfl⟩⟩⟩

/-- Witness for C5 at a database with no registered cameras. -/
theorem unknown_camera_fallback_witness :
    ((postDetection emptyDB detPayload0 ⟨false, false⟩).resp.status = 201
      ∧ ∃ rec : DetRecord,
          (postDetection emptyDB detPayload0 ⟨false, false⟩).db.detections
            = emptyDB.detections ++ [rec]
          ∧ rec.camera_id = none ∧ rec.location_id = fallbackLocation)
    ∧ ((false = false →
          (postAlert emptyDB alertPayload0 ⟨false, false⟩ 7).resp.status = 201)
      ∧ ∃ rec : AlertRecord,
          (postAlert emptyDB alertPayload0 ⟨false, false⟩ 7).db.alerts
            = emptyDB.alerts ++ [rec]
          ∧ rec.camera_id = none ∧ rec.location_id = fallbackLocation) :=
  unknown_camera_fallback emptyDB detPayload0 alertPayload0 ⟨false, false⟩ 7
    "cam-1" "loc-01" 5 [obj0] rfl rfl (by decide) rfl (by decide) rfl (by decide)
    rfl rfl rfl rfl

/-- Claim C6 (evaluation at the failing input): with Socket.IO present and the
emit call throwing, `postDetection` swallows the failure (inner try/catch) and
still answers 201 with the record stored, but `postAlert` — whose emit block
has no try/catch of its own — answers 500 "Internal server error" even though
the alert row and the `total_alerts` increment are already in the store and
are not rolled back. -/
theorem fanout_swallow_eval :
    (postDetection emptyDB detPayload0 ⟨true, true⟩).resp.status = 201
    ∧ (postDetection emptyDB detPayload0 ⟨true, true⟩).db.detections.length = 1
    ∧ (postAlert emptyDB alertPayload0 ⟨true, true⟩ 5).resp.status = 500
    ∧ (postAlert emptyDB alertPayload0 ⟨true, true⟩ 5).db.alerts.length = 1
    ∧ getStat (postAlert emptyDB alertPayload0 ⟨true, true⟩ 5).db.dailyStats
        fallbackLocation 0 .total_alerts = 1 := by
  decide

/-- Claim C7 (counterexample): the empty string is a status value outside
{open, reviewed, dismissed, resolved}, yet `updateAlert` does not fail with
InvalidStatus on it — JS truthiness makes `""` skip the validity check, the
call answers 200 and still modifies the alert (here its `reviewed_by`). -/
theorem invalid_status_cex :
    (validStatuses.contains "") = false
    ∧ (updateAlert dbAlertNoRow 1 (some "") (some "bob") 5).2.status = 200
    ∧ (updateAlert dbAlertNoRow 1 (some "") (some "bob") 5).1 ≠ dbAlertNoRow := by
  decide

/-- Claim C7 (amended): for every call with a NON-EMPTY status string outside
{open, reviewed, dismissed, resolved}, `updateAlert` fails with the
InvalidStatus 400 response and leaves the whole database — the targeted alert
and all aggregates — unmodified; an empty-string status is instead treated as
absent. -/
theorem invalid_status_rejected (db : DB) (id : Nat) (s : String)
    (rb : Option String) (now : Nat) (hs0 : s ≠ "")
    (hnv : s ∉ validStatuses) :
    updateAlert db id (some s) rb now
      = (db, ⟨400,
          .errText "Invalid status. Must be one of: open, reviewed, dismissed, resolved"⟩) := by
  unfold updateAlert
  have hg : (truthyS (some s) && !(validStatuses.contains ((some s).getD ""))) = true := by
    simp [truthyS, hs0, List.contains, List.elem_eq_mem, hnv]
  rw [if_pos hg]

/-- Witness for C7's amended theorem at a concrete invalid status. -/
theorem invalid_status_rejected_witness :
    updateAlert dbAlertNoRow 1 (some "banana") none 5
      = (dbAlertNoRow, ⟨400,
          .errText "Invalid status. Must be one of: open, reviewed, dismissed, resolved"⟩) :=
  invalid_status_rejected dbAlertNoRow 1 "banana" none 5 (by decide) (by decide)

/-- Claim C8: on the producer routes (detections, alerts, heartbeat), a
missing (or empty) X-API-Key header and a key outside the configured set both
stop the request in the middleware with the Unauthorized taxonomy kind
(HTTP 401 resp. 403): the database is unchanged and nothing is emitted. The
hypothesis `parseKeys env ≠ []` says producer keys are configured at all. -/
theorem producer_auth_guard (env : String) (hdr : Option String) (db : DB)
    (p : DetectionPayload) (pa : AlertPayload) (f : FanoutCtx) (now : Nat)
    (hcfg : parseKeys env ≠ [])
    (hbad : truthyS hdr = false ∨ (parseKeys env).contains (hdr.getD "") = false) :
    ((routeDetections env hdr db p f).db = db
      ∧ (routeDetections env hdr db p f).emitted = []
      ∧ isUnauthorized (routeDetections env hdr db p f).resp)
    ∧ ((routeAlerts env hdr db pa f now).db = db
      ∧ (routeAlerts env hdr db pa f now).emitted = []
      ∧ isUnauthorized (routeAlerts env hdr db pa f now).resp)
    ∧ ((routeHeartbeat env hdr db).db = db
      ∧ (routeHeartbeat env hdr db).emitted = []
      ∧ isUnauthorized (routeHeartbeat env hdr db).resp) := by
  have hauth : apiKeyAuth env hdr = .fail 401 "Missing X-API-Key header"
      ∨ apiKeyAuth env hdr = .fail 403 "Invalid API key" := by
    unfold apiKeyAuth
    cases ht : truthyS hdr with
    | false =>
      left
      rw [if_pos (show (!false) = true from rfl)]
    | true =>
      rcases hbad with h | h
      · rw [ht] at h
        exact absurd h (by decide)
      · right
        rw [if_neg (show ¬((!true) = true) by decide), if_neg hcfg,
          if_neg (by rw [h]; decide)]
  rcases hauth with h | h
  · unfold routeDetections routeAlerts routeHeartbeat
    rw [h]
    exact ⟨⟨rfl, rfl, Or.inl rfl⟩, ⟨rfl, rfl, Or.inl rfl⟩, ⟨rfl, rfl, Or.inl rfl⟩⟩
  · unfold routeDetections routeAlerts routeHeartbeat
    rw [h]
    exact ⟨⟨rfl, rfl, Or.inr rfl⟩, ⟨rfl, rfl, Or.inr rfl⟩, ⟨rfl, rfl, Or.inr rfl⟩⟩

/-- Witness for C8 with configured keys and a missing header. -/
theorem producer_auth_guard_witness :
    ((routeDetections "secret1,secret2" none emptyDB detPayload0 ⟨false, false⟩).db = emptyDB
      ∧ (routeDetections "secret1,secret2" none emptyDB detPayload0 ⟨false, false⟩).emitted = []
      ∧ isUnauthorized (routeDetections "secret1,secret2" none emptyDB detPayload0 ⟨false, false⟩).resp)
    ∧ ((routeAlerts "secret1,secret2" none emptyDB alertPayload0 ⟨false, false⟩ 0).db = emptyDB
      ∧ (routeAlerts "secret1,secret2" none emptyDB alertPayload0 ⟨false, false⟩ 0).emitted = []
      ∧ isUnauthorized (routeAlerts "secret1,secret2" none emptyDB alertPayload0 ⟨false, false⟩ 0).resp)
    ∧ ((routeHeartbeat "secret1,secret2" none emptyDB).db = emptyDB
      ∧ (routeHeartbeat "secret1,secret2" none emptyDB).emitted = []
      ∧ isUnauthorized (routeHeartbeat "secret1,secret2" none emptyDB).resp) :=
  producer_auth_guard "secret1,secret2" none emptyDB detPayload0 alertPayload0
    ⟨false, false⟩ 0 (by decide) (Or.inl rfl)

/-- Claim C9: the required `location_id` hint is only checked for presence —
two ingestion payloads that differ solely in a non-empty location hint yield
identical outcomes (same stored record, same aggregate update, same response,
same emitted event payloads) on both `postDetection` and `postAlert`:
resolution depends only on the camera lookup and the fixed fallback. -/
theorem location_hint_noninterference (db : DB) (p : DetectionPayload)
    (pa : AlertPayload) (f : FanoutCtx) (now : Nat) (l1 l2 : String)
    (h1 : l1 ≠ "") (h2 : l2 ≠ "") :
    postDetection db { p with location_id := some l1 } f
      = postDetection db { p with location_id := some l2 } f
    ∧ postAlert db { pa with location_id := some l1 } f now
      = postAlert db { pa with location_id := some l2 } f now := by
  constructor
  · simp [postDetection, truthyS, h1, h2]
  · simp [postAlert, truthyS, h1, h2]

/-- Witness for C9 at two concrete distinct location hints. -/
theorem location_hint_noninterference_witness :
    postDetection emptyDB { detPayload0 with location_id := some "loc-01" } ⟨false, false⟩
      = postDetection emptyDB { detPayload0 with location_id := some "loc-99" } ⟨false, false⟩
    ∧ postAlert emptyDB { alertPayload0 with location_id := some "loc-01" } ⟨false, false⟩ 7
      = postAlert emptyDB { alertPayload0 with location_id := some "loc-99" } ⟨false, false⟩ 7 :=
  location_hint_noninterference emptyDB detPayload0 alertPayload0 ⟨false, false⟩ 7
    "loc-01" "loc-99" (by decide) (by decide)

/-- Claim C10: an alert payload with no confidence field is stored with
severity `low` (the JS comparisons on `undefined` are false, so neither
threshold is met) and a null confidence (`confidence || null`). -/
theorem absent_confidence_low (db : DB) (p : AlertPayload) (f : FanoutCtx)
    (now : Nat) (c l : String) (ts : Nat)
    (hc : p.camera_id = some c) (hc0 : c ≠ "")
    (hl : p.location_id = some l) (hl0 : l ≠ "")
    (ht : p.timestamp = some ts) (ht0 : ts ≠ 0)
    (hq : p.confidence = none) :
    ∃ rec : AlertRecord,
      (postAlert db p f now).db.alerts = db.alerts ++ [rec]
      ∧ rec.severity = "low" ∧ rec.confidence = none := by
  have hguard : (truthyS p.camera_id && truthyS p.location_id
      && truthyN p.timestamp) = true := by
    simp [hc, hl, ht, truthyS, truthyN, hc0, hl0, ht0]
  have hsev : severityOf p.confidence = "low" := by
    rw [hq]
    rfl
  have hcn : jsOrNullQ p.confidence = none := by
    rw [hq]
    rfl
  unfold postAlert
  rw [if_pos hguard]
  obtain ⟨io, et⟩ := f
  cases io <;> cases et <;> exact ⟨_, rfl, hsev, hcn⟩

/-- Witness for C10 at a concrete payload without confidence. -/
theorem absent_confidence_low_witness :
    ∃ rec : AlertRecord,
      (postAlert emptyDB alertPayloadNoConf ⟨false, false⟩ 7).db.alerts
        = emptyDB.alerts ++ [rec]
      ∧ rec.severity = "low" ∧ rec.confidence = none :=
  absent_confidence_low emptyDB alertPayloadNoConf ⟨false, false⟩ 7 "cam-1" "loc-01"
    5 rfl (by decide) rfl (by decide) rfl (by decide) rfl

end ScanGuard
